import Mathlib

/-!
Shallow embedding of the `RobloxAPIClient` avatar-resolution cache from
`src/frontend/src/components/sentiment-analyzer/SentimentAnalyzer.tsx`.

The client keeps an in-memory cache (`avatarCache : Map<string, CacheEntry>`),
a map of in-flight requests (`pendingRequests : Map<string, Promise<string|null>>`)
and a TTL (`cacheExpirationTime`, default one hour in milliseconds).
We model the JavaScript `Map`s as association lists, timestamps as `Int`
milliseconds, JS numbers as `Rat` (with `none` standing for `NaN` in
coercions), and a promise that may reject as an `Except` value.

`getAvatarHeadshotUrl` runs synchronously up to the point where it either
returns a value or registers a fresh `fetchAvatarUrl` promise; we model that
synchronous prefix as `getAvatarHeadshotUrl` (phase A).  The later settlement
of the network request — the body of `fetchAvatarUrl` plus the `.finally`
cleanup attached in `getAvatarHeadshotUrl` — is modelled as `settleRequest`
(phase B).  A network request is counted as issued exactly when a new
`fetchAvatarUrl` promise is created.
-/

namespace AvatarClient

/-- A value of TypeScript type `number | string | null | undefined`, the
argument type of `getAvatarHeadshotUrl`.  JS numbers are restricted to the
integers actually used as player ids; `jsNumber` coerces to `Rat`. -/
inductive UserId where
  | jnull
  | jundefined
  | num (n : Int)
  | str (s : String)
deriving Repr, DecidableEq

/-- The JS `String(x)` coercion for the values of `UserId`. -/
def jsString : UserId → String
  | .jnull => "null"
  | .jundefined => "undefined"
  | .num n => toString n
  | .str s => s

/-- The JS `String.prototype.trim`: strips leading and trailing whitespace
(modelled with the ASCII whitespace characters). -/
def jsTrim (s : String) : String :=
  ⟨((s.data.dropWhile Char.isWhitespace).reverse.dropWhile Char.isWhitespace).reverse⟩

/-- Numeric value of a run of decimal digits. -/
def digitsVal (cs : List Char) : Nat :=
  cs.foldl (fun a c => a * 10 + (c.toNat - 48)) 0

/-- Whether every character is a decimal digit. -/
def allDigits (cs : List Char) : Bool :=
  cs.all (fun c => c.isDigit)

/-- Unsigned part of the JS `Number(string)` coercion, on the decimal forms
`digits`, `digits.digits`, `.digits`, `digits.` (the forms player ids can
take; hexadecimal, exponent and `Infinity` literals are outside the model).
`none` stands for `NaN`. -/
def jsParseUnsigned (cs : List Char) : Option Rat :=
  match cs.splitOn '.' with
  | [ip] =>
      if ip ≠ [] ∧ allDigits ip then some (digitsVal ip : Rat) else none
  | [ip, fp] =>
      if (ip ≠ [] ∨ fp ≠ []) ∧ allDigits ip ∧ allDigits fp then
        some ((digitsVal ip : Rat) + (digitsVal fp : Rat) / ((10 : Rat) ^ fp.length))
      else none
  | _ => none

/-- The JS `Number(string)` coercion: trims whitespace, maps the empty string
to `0`, parses an optional sign followed by a decimal literal; `none` is
`NaN`. -/
def jsStringToNumber (s : String) : Option Rat :=
  match (jsTrim s).data with
  | [] => some 0
  | '-' :: cs => (jsParseUnsigned cs).map (fun q => -q)
  | '+' :: cs => jsParseUnsigned cs
  | cs => jsParseUnsigned cs

/-- The JS `Number(x)` coercion for the values of `UserId`; `none` is `NaN`. -/
def jsNumber : UserId → Option Rat
  | .jnull => some 0
  | .jundefined => none
  | .num n => some (n : Rat)
  | .str s => jsStringToNumber s

/-- The validity guard at the top of `getAvatarHeadshotUrl`:
`userId === null || userId === undefined || String(userId).trim() === '' ||
Number(userId) <= 0`.  A `NaN` comparison is false in JS, hence the `none`
branch. -/
def isInvalidUserId (uid : UserId) : Bool :=
  uid = UserId.jnull || uid = UserId.jundefined ||
    jsTrim (jsString uid) = "" ||
    (match jsNumber uid with
     | some q => decide (q ≤ 0)
     | none => false)

/-- `interface CacheEntry { url: string; timestamp: number; }` -/
structure CacheEntry where
  url : String
  timestamp : Int
deriving Repr, DecidableEq

/-- First-match lookup in an association list, the model of `Map.get`. -/
def mapFind (k : String) : List (String × α) → Option α
  | [] => none
  | (k', v) :: rest => if k' = k then some v else mapFind k rest

/-- `Map.set`: the new binding shadows any previous one under `mapFind`. -/
def mapSet (k : String) (v : α) (m : List (String × α)) : List (String × α) :=
  (k, v) :: m

/-- `Map.delete`: removes every binding of the key. -/
def mapDelete (k : String) (m : List (String × α)) : List (String × α) :=
  m.filter (fun p => p.1 ≠ k)

/-- Mutable state of a `RobloxAPIClient` instance.  A pending request is
identified by the serial number `nextReqId` had when it was started, so that
callers coalesced onto one promise hold the same id. -/
structure ClientState where
  avatarCache : List (String × CacheEntry)
  pendingRequests : List (String × Nat)
  cacheExpirationTime : Int
  nextReqId : Nat
deriving Repr, DecidableEq

/-- `isCacheValid`: `Date.now() - entry.timestamp < this.cacheExpirationTime`. -/
def isCacheValid (now ttl : Int) (entry : CacheEntry) : Bool :=
  decide (now - entry.timestamp < ttl)

/-- `loadCacheFromStorage`: iterates the stored entries and `Map.set`s the
ones whose age is within the TTL, starting from an empty cache. -/
def loadCacheFromStorage (stored : List (String × CacheEntry)) (now ttl : Int) :
    List (String × CacheEntry) :=
  stored.foldl
    (fun m p => if now - p.2.timestamp < ttl then mapSet p.1 p.2 m else m) []

/-- The constructor: the TTL defaults to `60 * 60 * 1000` ms and is replaced
by `cacheExpirationTimeMs` when that argument is passed and truthy
(`if (cacheExpirationTimeMs)`); then `loadCacheFromStorage` runs once. -/
def mkClient (stored : List (String × CacheEntry))
    (cacheExpirationTimeMs : Option Int) (now : Int) : ClientState :=
  let ttl : Int :=
    match cacheExpirationTimeMs with
    | some ms => if ms = 0 then 60 * 60 * 1000 else ms
    | none => 60 * 60 * 1000
  { avatarCache := loadCacheFromStorage stored now ttl
    pendingRequests := []
    cacheExpirationTime := ttl
    nextReqId := 0 }

/-- What a call to `getAvatarHeadshotUrl` does before control returns to the
caller: return `null` (`invalid`), return a cached URL, return an existing
pending promise (`joined`), or register a fresh request (`started`). -/
inductive ResolveOutcome where
  | invalid
  | cacheHit (url : String)
  | joined (reqId : Nat)
  | started (reqId : Nat)
deriving Repr, DecidableEq

/-- The request id a caller is left awaiting, if any. -/
def awaitedReq : ResolveOutcome → Option Nat
  | .invalid => none
  | .cacheHit _ => none
  | .joined r => some r
  | .started r => some r

/-- Result of phase A: successor state, what the caller got, and the keys for
which a network request was issued by this call (`[]` or one element). -/
structure ResolveStep where
  state : ClientState
  outcome : ResolveOutcome
  networkCalls : List String
deriving Repr, DecidableEq

/-- The tail of `getAvatarHeadshotUrl` after the cache check missed: reuse a
pending request for the key if one exists, else create the `fetchAvatarUrl`
promise (issuing the network request) and store it in `pendingRequests`. -/
def startOrJoin (s : ClientState) (key : String) : ResolveStep :=
  match mapFind key s.pendingRequests with
  | some rid => ⟨s, .joined rid, []⟩
  | none =>
      ⟨{ s with
          pendingRequests := mapSet key s.nextReqId s.pendingRequests
          nextReqId := s.nextReqId + 1 },
        .started s.nextReqId, [key]⟩

/-- Phase A of `getAvatarHeadshotUrl(userId)`: validity guard, then cache
lookup guarded by `isCacheValid`, then the pending-request check, then
request creation. -/
def getAvatarHeadshotUrl (s : ClientState) (userId : UserId) (now : Int) :
    ResolveStep :=
  if isInvalidUserId userId then ⟨s, .invalid, []⟩
  else
    let key := jsString userId
    match mapFind key s.avatarCache with
    | some e =>
        if isCacheValid now s.cacheExpirationTime e then ⟨s, .cacheHit e.url, []⟩
        else startOrJoin s key
    | none => startOrJoin s key

/-- A JS exception crossing an `await`: an axios rejection carrying
`error.response.status` when a response exists, or a storage failure. -/
inductive JsError where
  | axiosError (status : Option Nat)
  | storageError
deriving Repr, DecidableEq

/-- How the backend round-trip for one request settles: a fulfilled axios
response (2xx) whose `data.imageUrl` is a string or not, a rejection with an
HTTP status, or a rejection with no response at all. -/
inductive BackendOutcome where
  | response (status : Nat) (imageUrl : Option String)
  | httpError (status : Nat)
  | networkError
deriving Repr, DecidableEq

/-- The body of `saveCacheToStorage` before its `catch`: serializing and
`localStorage.setItem` may throw (e.g. quota exceeded). -/
def saveCacheToStorageBody (storageOk : Bool) : Except JsError Unit :=
  if storageOk then .ok () else .error .storageError

/-- `saveCacheToStorage`: the `catch` logs and swallows any storage error. -/
def saveCacheToStorage (storageOk : Bool) : Except JsError Unit :=
  match saveCacheToStorageBody storageOk with
  | .ok u => .ok u
  | .error _ => .ok ()

/-- Result of one request settling: successor state, the value the shared
promise resolves to, and whether `saveCacheToStorage` was invoked. -/
structure SettleStep where
  state : ClientState
  result : Option String
  storageWrote : Bool
deriving Repr, DecidableEq

/-- The `try` block of `fetchAvatarUrl`: await the GET (a rejection is a
thrown `JsError`); on `response.status === 200` with a string
`data.imageUrl`, cache the entry with the current timestamp, save the cache
to storage and return the URL; otherwise return `null`. -/
def fetchAvatarUrlTry (s : ClientState) (key : String)
    (outcome : BackendOutcome) (storageOk : Bool) (now : Int) :
    Except JsError SettleStep :=
  match outcome with
  | .response status imageUrl =>
      match imageUrl with
      | some url =>
          if status = 200 then
            let s' := { s with
              avatarCache := mapSet key ⟨url, now⟩ s.avatarCache }
            match saveCacheToStorage storageOk with
            | .ok _ => .ok ⟨s', some url, true⟩
            | .error e => .error e
          else .ok ⟨s, none, false⟩
      | none => .ok ⟨s, none, false⟩
  | .httpError status => .error (.axiosError (some status))
  | .networkError => .error (.axiosError none)

/-- `fetchAvatarUrl`: the `catch` block logs (distinguishing 404) and returns
`null` for every thrown error, so the promise only ever resolves. -/
def fetchAvatarUrl (s : ClientState) (key : String) (outcome : BackendOutcome)
    (storageOk : Bool) (now : Int) : Except JsError SettleStep :=
  match fetchAvatarUrlTry s key outcome storageOk now with
  | .ok r => .ok r
  | .error _ => .ok ⟨s, none, false⟩

/-- Settlement of the promise registered by `getAvatarHeadshotUrl`: the
`.finally` handler deletes the key from `pendingRequests` whether the
`fetchAvatarUrl` promise fulfilled or rejected, then the outcome passes
through unchanged. -/
def settleRequest (s : ClientState) (key : String) (outcome : BackendOutcome)
    (storageOk : Bool) (now : Int) :
    ClientState × Except JsError (Option String) × Bool :=
  match fetchAvatarUrl s key outcome storageOk now with
  | .ok r =>
      ({ r.state with pendingRequests := mapDelete key r.state.pendingRequests },
        .ok r.result, r.storageWrote)
  | .error e =>
      ({ s with pendingRequests := mapDelete key s.pendingRequests },
        .error e, false)

/-- `clearAvatarCache(userId?)`: with a defined argument, delete that key
from the cache; otherwise clear the whole cache.  Either way the cache is
re-persisted (`saveCacheToStorage`); `pendingRequests` is untouched.  The
returned flag records that the storage write was invoked. -/
def clearAvatarCache (s : ClientState) (userId : Option UserId) :
    ClientState × Bool :=
  match userId with
  | some uid =>
      if uid = UserId.jundefined then ({ s with avatarCache := [] }, true)
      else ({ s with avatarCache := mapDelete (jsString uid) s.avatarCache }, true)
  | none => ({ s with avatarCache := [] }, true)

/-- An interleaving of client operations, for stating the coalescing
invariant. -/
inductive Event where
  | resolveEv (uid : UserId) (now : Int)
  | settleEv (key : String) (outcome : BackendOutcome) (storageOk : Bool) (now : Int)
  | clearEv (userId : Option UserId)
deriving Repr, DecidableEq

/-- Final state of a run together with the phase-A outcome of every
`resolveEv` and every network request issued, in order. -/
structure RunResult where
  state : ClientState
  outcomes : List ResolveOutcome
  networkCalls : List String
deriving Repr, DecidableEq

/-- Runs a list of events from a state. -/
def runEvents (s : ClientState) : List Event → RunResult
  | [] => ⟨s, [], []⟩
  | .resolveEv uid now :: rest =>
      let st := getAvatarHeadshotUrl s uid now
      let r := runEvents st.state rest
      ⟨r.state, st.outcome :: r.outcomes, st.networkCalls ++ r.networkCalls⟩
  | .settleEv key outcome storageOk now :: rest =>
      runEvents (settleRequest s key outcome storageOk now).1 rest
  | .clearEv userId :: rest =>
      runEvents (clearAvatarCache s userId).1 rest

end AvatarClient

namespace AvatarClient

theorem mapFind_mapSet_self (k : String) (v : α) (m : List (String × α)) :
    mapFind k (mapSet k v m) = some v := by
  simp [mapFind, mapSet]

theorem mapFind_mapDelete_self (k : String) (m : List (String × α)) :
    mapFind k (mapDelete k m) = none := by
  induction m with
  | nil => rfl
  | cons p rest ih =>
      by_cases h : p.1 = k
      · simpa [mapDelete, List.filter_cons, h] using ih
      · simpa [mapDelete, List.filter_cons, h, mapFind] using ih

theorem mapFind_mapDelete_ne (k k' : String) (m : List (String × α))
    (h : k' ≠ k) : mapFind k' (mapDelete k m) = mapFind k' m := by
  induction m with
  | nil => rfl
  | cons p rest ih =>
      simp only [mapDelete, ne_eq, decide_not] at ih ⊢
      rw [List.filter_cons]
      by_cases hp : p.1 = k
      · have hkk : ¬ (k = k') := fun hh => h hh.symm
        simp [hp, mapFind, hkk, ih]
      · by_cases hp' : p.1 = k'
        · simp [hp, hp', h, mapFind]
        · simp [hp, hp', mapFind, ih]

theorem saveCacheToStorage_ok (storageOk : Bool) :
    saveCacheToStorage storageOk = Except.ok () := by
  cases storageOk <;> rfl

theorem fetchAvatarUrl_isOk (s : ClientState) (key : String)
    (outcome : BackendOutcome) (storageOk : Bool) (now : Int) :
    ∃ st : SettleStep, fetchAvatarUrl s key outcome storageOk now = Except.ok st := by
  unfold fetchAvatarUrl
  cases fetchAvatarUrlTry s key outcome storageOk now <;> exact ⟨_, rfl⟩

theorem getAvatar_starts (s : ClientState) (uid : UserId) (now : Int)
    (hv : isInvalidUserId uid = false)
    (hmiss : ∀ e, mapFind (jsString uid) s.avatarCache = some e →
      isCacheValid now s.cacheExpirationTime e = false)
    (hp : mapFind (jsString uid) s.pendingRequests = none) :
    getAvatarHeadshotUrl s uid now =
      ⟨{ s with
          pendingRequests := mapSet (jsString uid) s.nextReqId s.pendingRequests
          nextReqId := s.nextReqId + 1 },
        ResolveOutcome.started s.nextReqId, [jsString uid]⟩ := by
  unfold getAvatarHeadshotUrl
  simp only [hv, Bool.false_eq_true, if_false]
  cases hc : mapFind (jsString uid) s.avatarCache with
  | none => simp [startOrJoin, hp]
  | some e => simp [hmiss e hc, startOrJoin, hp]

theorem runEvents_all_joined (s : ClientState) (uid : UserId) (rid : Nat)
    (ts : List Int)
    (hv : isInvalidUserId uid = false)
    (hc : mapFind (jsString uid) s.avatarCache = none)
    (hp : mapFind (jsString uid) s.pendingRequests = some rid) :
    runEvents s (ts.map (Event.resolveEv uid)) =
      ⟨s, ts.map (fun _ => ResolveOutcome.joined rid), []⟩ := by
  induction ts with
  | nil => rfl
  | cons t rest ih =>
      have h1 : getAvatarHeadshotUrl s uid t = ⟨s, .joined rid, []⟩ := by
        unfold getAvatarHeadshotUrl
        simp [hv, hc, startOrJoin, hp]
      simp [runEvents, h1, ih]

theorem mem_loadCache_aux (stored : List (String × CacheEntry))
    (acc : List (String × CacheEntry)) (now ttl : Int) (p : String × CacheEntry) :
    (p ∈ stored.foldl
        (fun m q => if now - q.2.timestamp < ttl then mapSet q.1 q.2 m else m) acc) ↔
      p ∈ acc ∨ (p ∈ stored ∧ now - p.2.timestamp < ttl) := by
  induction stored generalizing acc with
  | nil => simp
  | cons q rest ih =>
      rw [List.foldl_cons]
      by_cases h : now - q.2.timestamp < ttl
      · rw [if_pos h, ih]
        simp only [mapSet, List.mem_cons]
        constructor
        · rintro ((rfl | hacc) | ⟨hr, hcnd⟩)
          · exact Or.inr ⟨Or.inl rfl, h⟩
          · exact Or.inl hacc
          · exact Or.inr ⟨Or.inr hr, hcnd⟩
        · rintro (hacc | ⟨(rfl | hr), hcnd⟩)
          · exact Or.inl (Or.inr hacc)
          · exact Or.inl (Or.inl rfl)
          · exact Or.inr ⟨hr, hcnd⟩
      · rw [if_neg h, ih]
        simp only [List.mem_cons]
        constructor
        · rintro (hacc | ⟨hr, hcnd⟩)
          · exact Or.inl hacc
          · exact Or.inr ⟨Or.inr hr, hcnd⟩
        · rintro (hacc | ⟨(rfl | hr), hcnd⟩)
          · exact Or.inl hacc
          · exact absurd hcnd h
          · exact Or.inr ⟨hr, hcnd⟩

theorem mem_loadCacheFromStorage (stored : List (String × CacheEntry))
    (now ttl : Int) (p : String × CacheEntry) :
    p ∈ loadCacheFromStorage stored now ttl ↔
      p ∈ stored ∧ now - p.2.timestamp < ttl := by
  simpa using mem_loadCache_aux stored [] now ttl p

end AvatarClient

namespace AvatarClient

/-- C3: for every input that is null, undefined, empty after trimming, or
numerically ≤ 0, `getAvatarHeadshotUrl` returns `null` (outcome `invalid`),
issues zero network calls and leaves the client state — in particular the
cache — unchanged (the guard precedes the cache lookup and the pending-map
lookup in the source). -/
theorem invalid_input_short_circuits (s : ClientState) (uid : UserId) (now : Int)
    (h : uid = UserId.jnull ∨ uid = UserId.jundefined ∨
      jsTrim (jsString uid) = "" ∨ ∃ q, jsNumber uid = some q ∧ q ≤ 0) :
    getAvatarHeadshotUrl s uid now = ⟨s, ResolveOutcome.invalid, []⟩ := by
  have hinv : isInvalidUserId uid = true := by
    rcases h with rfl | rfl | h3 | ⟨q, hq, hle⟩
    · simp [isInvalidUserId]
    · simp [isInvalidUserId]
    · simp [isInvalidUserId, h3]
    · simp [isInvalidUserId, hq, decide_eq_true hle]
  simp [getAvatarHeadshotUrl, hinv]

/-- Witness for C3 at the spec example `"-5"`. -/
theorem invalid_input_short_circuits_witness :
    getAvatarHeadshotUrl ⟨[], [], 3600000, 0⟩ (UserId.str "-5") 0 =
      ⟨⟨[], [], 3600000, 0⟩, ResolveOutcome.invalid, []⟩ :=
  invalid_input_short_circuits ⟨[], [], 3600000, 0⟩ (UserId.str "-5") 0
    (Or.inr (Or.inr (Or.inr ⟨-5, by decide, by decide⟩)))

/-- C10: a string that is non-empty after trimming but has no numeric value
(its `Number` coercion is `NaN`, e.g. `"abc"`) passes the validity guard;
on a cache miss with no pending request, `getAvatarHeadshotUrl` proceeds to
issue a network call keyed by that very string. -/
theorem nan_string_passes_guard (s : ClientState) (t : String) (now : Int)
    (htrim : jsTrim t ≠ "")
    (hnan : jsStringToNumber t = none)
    (hc : mapFind t s.avatarCache = none)
    (hp : mapFind t s.pendingRequests = none) :
    isInvalidUserId (UserId.str t) = false ∧
    getAvatarHeadshotUrl s (UserId.str t) now =
      ⟨{ s with
          pendingRequests := mapSet t s.nextReqId s.pendingRequests
          nextReqId := s.nextReqId + 1 },
        ResolveOutcome.started s.nextReqId, [t]⟩ := by
  have hinv : isInvalidUserId (UserId.str t) = false := by
    simp [isInvalidUserId, jsString, jsNumber, htrim, hnan]
  refine ⟨hinv, ?_⟩
  exact getAvatar_starts s (UserId.str t) now hinv
    (fun e he => absurd he (by simp [jsString, hc]))
    hp

/-- Witness for C10 at `"abc"`. -/
theorem nan_string_passes_guard_witness :
    isInvalidUserId (UserId.str "abc") = false ∧
    getAvatarHeadshotUrl ⟨[], [], 3600000, 0⟩ (UserId.str "abc") 0 =
      ⟨⟨[], [("abc", 0)], 3600000, 1⟩, ResolveOutcome.started 0, ["abc"]⟩ :=
  nan_string_passes_guard ⟨[], [], 3600000, 0⟩ "abc" 0 (by decide) (by decide) rfl rfl

/-- C2: with a cache entry for the identifier present, a resolve whose age is
strictly below the TTL returns that entry's URL with zero network calls and
no state change; and once the age has reached the TTL, a resolve (with no
request in flight, as after a settled resolution) issues exactly one new
network call. -/
theorem cache_hit_within_ttl_refetch_after (s : ClientState) (uid : UserId)
    (now now2 : Int) (e : CacheEntry)
    (hv : isInvalidUserId uid = false)
    (he : mapFind (jsString uid) s.avatarCache = some e) :
    (now - e.timestamp < s.cacheExpirationTime →
      getAvatarHeadshotUrl s uid now = ⟨s, ResolveOutcome.cacheHit e.url, []⟩) ∧
    (s.cacheExpirationTime ≤ now2 - e.timestamp →
      mapFind (jsString uid) s.pendingRequests = none →
      getAvatarHeadshotUrl s uid now2 =
        ⟨{ s with
            pendingRequests := mapSet (jsString uid) s.nextReqId s.pendingRequests
            nextReqId := s.nextReqId + 1 },
          ResolveOutcome.started s.nextReqId, [jsString uid]⟩) := by
  constructor
  · intro hfresh
    unfold getAvatarHeadshotUrl
    simp [hv, he, isCacheValid, hfresh]
  · intro hexp hp
    exact getAvatar_starts s uid now2 hv
      (fun e' he' => by
        rw [he] at he'
        cases Option.some.inj he'
        simp [isCacheValid, not_lt.mpr hexp])
      hp

/-- Witness for C2: a hit at age 10 ms, a refetch at age 3600000 ms. -/
theorem cache_hit_within_ttl_refetch_after_witness :
    getAvatarHeadshotUrl ⟨[("156", ⟨"https://cdn/x.png", 0⟩)], [], 3600000, 0⟩
        (UserId.num 156) 10 =
      ⟨⟨[("156", ⟨"https://cdn/x.png", 0⟩)], [], 3600000, 0⟩,
        ResolveOutcome.cacheHit "https://cdn/x.png", []⟩ ∧
    getAvatarHeadshotUrl ⟨[("156", ⟨"https://cdn/x.png", 0⟩)], [], 3600000, 0⟩
        (UserId.num 156) 3600000 =
      ⟨⟨[("156", ⟨"https://cdn/x.png", 0⟩)], [("156", 0)], 3600000, 1⟩,
        ResolveOutcome.started 0, ["156"]⟩ := by
  have h := cache_hit_within_ttl_refetch_after
    ⟨[("156", ⟨"https://cdn/x.png", 0⟩)], [], 3600000, 0⟩ (UserId.num 156)
    10 3600000 ⟨"https://cdn/x.png", 0⟩ (by decide) (by decide)
  exact ⟨h.1 (by decide), h.2 (by decide) rfl⟩

/-- C9: invalidating an identifier and then resolving it always issues a
network call (outcome `started`), whatever the age of the entry that was
removed — in particular even when it was still within its TTL. -/
theorem invalidate_then_resolve_refetches (s : ClientState) (uid : UserId)
    (now : Int)
    (hv : isInvalidUserId uid = false)
    (hp : mapFind (jsString uid) s.pendingRequests = none) :
    (getAvatarHeadshotUrl (clearAvatarCache s (some uid)).1 uid now).networkCalls =
      [jsString uid] ∧
    (getAvatarHeadshotUrl (clearAvatarCache s (some uid)).1 uid now).outcome =
      ResolveOutcome.started s.nextReqId := by
  have hu : uid ≠ UserId.jundefined := by
    intro hh
    rw [hh] at hv
    simp [isInvalidUserId] at hv
  have hcl : (clearAvatarCache s (some uid)).1 =
      { s with avatarCache := mapDelete (jsString uid) s.avatarCache } := by
    simp [clearAvatarCache, hu]
  rw [hcl]
  have hst := getAvatar_starts
    { s with avatarCache := mapDelete (jsString uid) s.avatarCache } uid now hv
    (fun e he => absurd he (by simp [mapFind_mapDelete_self]))
    hp
  rw [hst]
  exact ⟨rfl, rfl⟩

/-- Witness for C9: the invalidated entry was written at time 0 and the
resolve happens at time 10, well within the TTL. -/
theorem invalidate_then_resolve_refetches_witness :
    (getAvatarHeadshotUrl
        (clearAvatarCache ⟨[("156", ⟨"https://cdn/x.png", 0⟩)], [], 3600000, 0⟩
          (some (UserId.num 156))).1
        (UserId.num 156) 10).networkCalls = ["156"] ∧
    (getAvatarHeadshotUrl
        (clearAvatarCache ⟨[("156", ⟨"https://cdn/x.png", 0⟩)], [], 3600000, 0⟩
          (some (UserId.num 156))).1
        (UserId.num 156) 10).outcome = ResolveOutcome.started 0 :=
  invalidate_then_resolve_refetches
    ⟨[("156", ⟨"https://cdn/x.png", 0⟩)], [], 3600000, 0⟩ (UserId.num 156) 10
    (by decide) rfl

end AvatarClient

namespace AvatarClient

/-- C1: from a state with no cache entry and no pending request for a valid
identifier, N resolve calls issued before any settlement start exactly one
network request, and every one of the N callers is left awaiting the same
request id — the one shared promise — so all receive the result that single
request settles with. -/
theorem resolve_coalesces_concurrent_calls (s : ClientState) (uid : UserId)
    (ts : List Int)
    (hv : isInvalidUserId uid = false)
    (hc : mapFind (jsString uid) s.avatarCache = none)
    (hp : mapFind (jsString uid) s.pendingRequests = none)
    (hne : ts ≠ []) :
    (runEvents s (ts.map (Event.resolveEv uid))).networkCalls = [jsString uid] ∧
    (runEvents s (ts.map (Event.resolveEv uid))).outcomes.map awaitedReq =
      List.replicate ts.length (some s.nextReqId) := by
  cases ts with
  | nil => exact absurd rfl hne
  | cons t rest =>
      have h1 := getAvatar_starts s uid t hv
        (fun e he => absurd he (by simp [hc])) hp
      have h2 := runEvents_all_joined
        { s with
            pendingRequests := mapSet (jsString uid) s.nextReqId s.pendingRequests
            nextReqId := s.nextReqId + 1 }
        uid s.nextReqId rest hv hc (mapFind_mapSet_self _ _ _)
      simp [runEvents, h1, h2, awaitedReq, List.map_map, Function.comp,
        List.replicate_succ, List.map_const']

/-- Witness for C1: three concurrent resolves for `156` from a fresh state. -/
theorem resolve_coalesces_concurrent_calls_witness :
    (runEvents ⟨[], [], 3600000, 0⟩
        ([0, 0, 0].map (Event.resolveEv (UserId.num 156)))).networkCalls = ["156"] ∧
    (runEvents ⟨[], [], 3600000, 0⟩
        ([0, 0, 0].map (Event.resolveEv (UserId.num 156)))).outcomes.map awaitedReq =
      List.replicate 3 (some 0) :=
  resolve_coalesces_concurrent_calls ⟨[], [], 3600000, 0⟩ (UserId.num 156)
    [0, 0, 0] (by decide) rfl rfl (by decide)

/-- C4: a 404 settlement resolves to `null`, writes neither the cache nor
durable storage, and removes the pending entry, so an immediately following
resolve for the same identifier issues a fresh network call instead of being
served from cache. -/
theorem notfound_never_cached (s : ClientState) (uid : UserId)
    (storageOk : Bool) (now now2 : Int)
    (hv : isInvalidUserId uid = false)
    (hc : mapFind (jsString uid) s.avatarCache = none) :
    (settleRequest s (jsString uid) (BackendOutcome.httpError 404)
        storageOk now).1.avatarCache = s.avatarCache ∧
    (settleRequest s (jsString uid) (BackendOutcome.httpError 404)
        storageOk now).2.1 = Except.ok none ∧
    (settleRequest s (jsString uid) (BackendOutcome.httpError 404)
        storageOk now).2.2 = false ∧
    (getAvatarHeadshotUrl
        (settleRequest s (jsString uid) (BackendOutcome.httpError 404)
          storageOk now).1 uid now2).networkCalls = [jsString uid] := by
  have hs : settleRequest s (jsString uid) (BackendOutcome.httpError 404)
      storageOk now =
      ({ s with pendingRequests := mapDelete (jsString uid) s.pendingRequests },
        Except.ok none, false) := rfl
  rw [hs]
  refine ⟨rfl, rfl, rfl, ?_⟩
  have hst := getAvatar_starts
    { s with pendingRequests := mapDelete (jsString uid) s.pendingRequests }
    uid now2 hv
    (fun e he => absurd he (by simp [hc]))
    (mapFind_mapDelete_self _ _)
  rw [hst]

/-- Witness for C4 at the spec scenario: `resolve("999")` settles with 404,
then an immediate second resolve issues a second request. -/
theorem notfound_never_cached_witness :
    (settleRequest ⟨[], [("999", 0)], 3600000, 1⟩ "999"
        (BackendOutcome.httpError 404) true 0).2.1 = Except.ok none ∧
    (getAvatarHeadshotUrl
        (settleRequest ⟨[], [("999", 0)], 3600000, 1⟩ "999"
          (BackendOutcome.httpError 404) true 0).1
        (UserId.str "999") 5).networkCalls = ["999"] := by
  have h := notfound_never_cached ⟨[], [("999", 0)], 3600000, 1⟩
    (UserId.str "999") true 0 5 (by decide) rfl
  exact ⟨h.2.1, h.2.2.2⟩

/-- C5: when a request settles the pending-map entry for its key is removed
whatever the outcome — fulfilled or rejected — so a later resolve starts a
fresh request instead of reusing a settled promise. -/
theorem settle_removes_pending_unconditionally (s : ClientState) (key : String)
    (outcome : BackendOutcome) (storageOk : Bool) (now : Int) :
    mapFind key (settleRequest s key outcome storageOk now).1.pendingRequests =
      none := by
  cases hfe : fetchAvatarUrl s key outcome storageOk now with
  | ok r => simp [settleRequest, hfe, mapFind_mapDelete_self]
  | error e => simp [settleRequest, hfe, mapFind_mapDelete_self]

/-- C6: no error escapes as an exception: for every backend and storage
outcome the `fetchAvatarUrl` promise fulfills (with a URL or `null`), the
settled resolution passed to the callers is an `ok` value, and a storage
failure during `saveCacheToStorage` is swallowed. -/
theorem resolve_never_rejects (s : ClientState) (key : String)
    (outcome : BackendOutcome) (storageOk : Bool) (now : Int) :
    (∃ st : SettleStep,
      fetchAvatarUrl s key outcome storageOk now = Except.ok st) ∧
    (∃ v : Option String,
      (settleRequest s key outcome storageOk now).2.1 = Except.ok v) ∧
    saveCacheToStorage storageOk = Except.ok () := by
  obtain ⟨st, hst⟩ := fetchAvatarUrl_isOk s key outcome storageOk now
  exact ⟨⟨st, hst⟩, ⟨st.result, by simp [settleRequest, hst]⟩,
    saveCacheToStorage_ok storageOk⟩

/-- C7: the durable-storage write happens exactly on a successful resolution
(an HTTP 200 response whose payload carries a URL string), never on
not-found, error or malformed-response settlements; and construction loads
from storage exactly the entries whose age is within the TTL. -/
theorem storage_write_iff_success_load_within_ttl (s : ClientState)
    (key : String) (outcome : BackendOutcome) (storageOk : Bool) (now : Int)
    (stored : List (String × CacheEntry)) (ttlOpt : Option Int)
    (p : String × CacheEntry) :
    ((settleRequest s key outcome storageOk now).2.2 = true ↔
      ∃ url, outcome = BackendOutcome.response 200 (some url)) ∧
    (p ∈ (mkClient stored ttlOpt now).avatarCache ↔
      p ∈ stored ∧
        now - p.2.timestamp < (mkClient stored ttlOpt now).cacheExpirationTime) := by
  constructor
  · cases outcome with
    | response status imageUrl =>
        cases imageUrl with
        | some url =>
            by_cases h200 : status = 200
            · subst h200
              refine iff_of_true ?_ ⟨url, rfl⟩
              simp [settleRequest, fetchAvatarUrl, fetchAvatarUrlTry,
                saveCacheToStorage_ok storageOk]
            · refine iff_of_false ?_ ?_
              · simp [settleRequest, fetchAvatarUrl, fetchAvatarUrlTry, h200]
              · rintro ⟨url1, hurl⟩
                simp at hurl
                exact h200 hurl.1
        | none =>
            refine iff_of_false ?_ ?_
            · simp [settleRequest, fetchAvatarUrl, fetchAvatarUrlTry]
            · rintro ⟨url1, hurl⟩
              simp at hurl
    | httpError st =>
        refine iff_of_false ?_ ?_
        · simp [settleRequest, fetchAvatarUrl, fetchAvatarUrlTry]
        · rintro ⟨url1, hurl⟩
          cases hurl
    | networkError =>
        refine iff_of_false ?_ ?_
        · simp [settleRequest, fetchAvatarUrl, fetchAvatarUrlTry]
        · rintro ⟨url1, hurl⟩
          cases hurl
  · exact mem_loadCacheFromStorage stored now
      (mkClient stored ttlOpt now).cacheExpirationTime p

/-- C8: `clearAvatarCache` with an identifier removes exactly that key's
cache entry and keeps every other binding, `clearAvatarCache` with no
argument empties the cache; in both cases the pending map is untouched and
the cache is re-persisted to storage. -/
theorem clear_cache_semantics (s : ClientState) (uid : UserId) (k : String)
    (hu : uid ≠ UserId.jundefined) (hk : k ≠ jsString uid) :
    mapFind (jsString uid) (clearAvatarCache s (some uid)).1.avatarCache = none ∧
    mapFind k (clearAvatarCache s (some uid)).1.avatarCache =
      mapFind k s.avatarCache ∧
    (clearAvatarCache s (some uid)).1.pendingRequests = s.pendingRequests ∧
    (clearAvatarCache s (some uid)).2 = true ∧
    (clearAvatarCache s none).1.avatarCache = [] ∧
    (clearAvatarCache s none).1.pendingRequests = s.pendingRequests ∧
    (clearAvatarCache s none).2 = true := by
  have hcl : clearAvatarCache s (some uid) =
      ({ s with avatarCache := mapDelete (jsString uid) s.avatarCache }, true) := by
    simp [clearAvatarCache, hu]
  rw [hcl]
  exact ⟨mapFind_mapDelete_self _ _, mapFind_mapDelete_ne _ _ _ hk,
    rfl, rfl, rfl, rfl, rfl⟩

/-- Witness for C8: removing `"156"` from a two-entry cache keeps `"7"`. -/
theorem clear_cache_semantics_witness :
    mapFind "156" (clearAvatarCache
        ⟨[("156", ⟨"u", 0⟩), ("7", ⟨"w", 0⟩)], [("9", 3)], 3600000, 5⟩
        (some (UserId.num 156))).1.avatarCache = none ∧
    mapFind "7" (clearAvatarCache
        ⟨[("156", ⟨"u", 0⟩), ("7", ⟨"w", 0⟩)], [("9", 3)], 3600000, 5⟩
        (some (UserId.num 156))).1.avatarCache =
      mapFind "7" [("156", ⟨"u", 0⟩), ("7", ⟨"w", 0⟩)] ∧
    (clearAvatarCache
        ⟨[("156", ⟨"u", 0⟩), ("7", ⟨"w", 0⟩)], [("9", 3)], 3600000, 5⟩
        (some (UserId.num 156))).1.pendingRequests = [("9", 3)] ∧
    (clearAvatarCache
        ⟨[("156", ⟨"u", 0⟩), ("7", ⟨"w", 0⟩)], [("9", 3)], 3600000, 5⟩
        (some (UserId.num 156))).2 = true ∧
    (clearAvatarCache
        ⟨[("156", ⟨"u", 0⟩), ("7", ⟨"w", 0⟩)], [("9", 3)], 3600000, 5⟩
        none).1.avatarCache = [] ∧
    (clearAvatarCache
        ⟨[("156", ⟨"u", 0⟩), ("7", ⟨"w", 0⟩)], [("9", 3)], 3600000, 5⟩
        none).1.pendingRequests = [("9", 3)] ∧
    (clearAvatarCache
        ⟨[("156", ⟨"u", 0⟩), ("7", ⟨"w", 0⟩)], [("9", 3)], 3600000, 5⟩
        none).2 = true :=
  clear_cache_semantics
    ⟨[("156", ⟨"u", 0⟩), ("7", ⟨"w", 0⟩)], [("9", 3)], 3600000, 5⟩
    (UserId.num 156) "7" (by decide) (by decide)

end AvatarClient
